import Mathlib

/-!
# Verification of the rpcjs pair / actor-registry core

A shallow embedding of the rpcjs RPC library (src/rpcjs.js, src/actors.js,
src/helpers.js) and proofs of the testable properties stated in its
specification.

Modelling conventions:
* JavaScript values are `JSValue`; functions are modelled by the finitely
  many behaviours the claims need (`funcReturnsArg`, `funcConst`,
  `funcThrows`, `funcRejects`, `funcNever`), since a JS closure cannot occur
  negatively inside an inductive type.
* A settled/unsettled promise is a `PromiseResult` (`resolved`/`rejected`/
  `pending`).  `runEnsuringPromise` embeds src/helpers.js: a synchronous
  throw becomes a rejection, a plain value becomes a resolution.
* The `universal-promise-helpers` dependency (external to this repository)
  is embedded from the spec's description (§4.D, §5): `eventToPromise`
  registers a one-shot waiter, `timeout` races a promise against a duration.
-/

namespace Rpcjs

/-- A JavaScript value, as far as the rpcjs protocol observes it.
Functions carry one of the behaviours used by exposed methods / actor
methods in the claims. -/
inductive JSValue where
  | null
  | undefined
  | boolVal (b : Bool)
  | numVal (n : Int)
  | strVal (s : String)
  | objVal (fields : List (String × JSValue))
  | funcReturnsArg (i : Nat)
  | funcConst (v : JSValue)
  | funcThrows (msg : String)
  | funcRejects (msg : String)
  | funcNever

/-- JavaScript `typeof`.  Note the JS quirk `typeof null === "object"`,
which matters for `exposeActor`'s argument check. -/
def jsTypeof : JSValue → String
  | .null => "object"
  | .undefined => "undefined"
  | .boolVal _ => "boolean"
  | .numVal _ => "number"
  | .strVal _ => "string"
  | .objVal _ => "object"
  | .funcReturnsArg _ => "function"
  | .funcConst _ => "function"
  | .funcThrows _ => "function"
  | .funcRejects _ => "function"
  | .funcNever => "function"

/-- JavaScript truthiness (floats and NaN are out of scope; integers model
the numbers the protocol carries). -/
def truthy : JSValue → Bool
  | .null => false
  | .undefined => false
  | .boolVal b => b
  | .numVal n => n != 0
  | .strVal s => s != ""
  | .objVal _ => true
  | .funcReturnsArg _ => true
  | .funcConst _ => true
  | .funcThrows _ => true
  | .funcRejects _ => true
  | .funcNever => true

/-- `v || null` — the coercion `sendResult` applies to every outbound
result payload (src/rpcjs.js line 236: `result: result || null`). -/
def orNull (v : JSValue) : JSValue :=
  if truthy v then v else JSValue.null

/-- `typeof v === "function"`. -/
def isFunction (v : JSValue) : Bool :=
  jsTypeof v == "function"

/-- JavaScript property access `v[k]`: throws a TypeError on `null` and
`undefined`; returns `undefined` for a missing key or a primitive base. -/
def getProp : JSValue → String → Except String JSValue
  | .null, _ => .error "TypeError: cannot read property of null"
  | .undefined, _ => .error "TypeError: cannot read property of undefined"
  | .objVal fields, k => .ok ((fields.lookup k).getD .undefined)
  | _, _ => .ok .undefined

/-- The observable state of a promise. -/
inductive PromiseResult where
  | resolved (v : JSValue)
  | rejected (msg : String)
  | pending

/-- src/helpers.js `runEnsuringPromise`: apply `fn` to `params`; a
synchronous throw is caught and becomes a rejection, a plain return value
becomes a resolution.  Applying a non-function throws a TypeError, which
the surrounding `try` in the source also converts into a rejection. -/
def runEnsuringPromise : JSValue → List JSValue → PromiseResult
  | .funcReturnsArg i, args => .resolved (args.getD i .undefined)
  | .funcConst v, _ => .resolved v
  | .funcThrows msg, _ => .rejected msg
  | .funcRejects msg, _ => .rejected msg
  | .funcNever, _ => .pending
  | _, _ => .rejected "TypeError: not a function"

/-- `promiseHelpers.timeout` (external dependency).  Modelled from the
spec: a promise that has not settled when the duration elapses is rejected
with the given timeout message; a settled promise keeps its outcome. -/
def withTimeout (msg : String) : PromiseResult → PromiseResult
  | .pending => .rejected msg
  | r => r

/-- A `result` wire frame.  `result`/`error` being `Option` models JSON
key presence, matching the `"result" in result` / `"error" in result`
checks in `handleResult`. -/
structure ResultFrame where
  id : String
  result : Option JSValue
  error : Option String

/-- A wire message, discriminated like `message.type` in `incoming`. -/
inductive WireMsg where
  | callW (id method : String) (params : List JSValue)
  | notifyW (id event : String) (data : List JSValue)
  | resultW (f : ResultFrame)
  | unknownW (ty : String)

/-- The correlation id of a wire message. -/
def WireMsg.wid : WireMsg → String
  | .callW id _ _ => id
  | .notifyW id _ _ => id
  | .resultW f => f.id
  | .unknownW _ => ""

/-- `sendResult(id, result)`: builds the result frame written to the
transport; the payload is coerced by `result || null`. -/
def mkResult (id : String) (v : JSValue) : ResultFrame :=
  ⟨id, some (orNull v), none⟩

/-- `sendError(id, error)`: builds an error result frame (we retain the
error's `message`; `name`/`stack`/extra fields do not affect any claim). -/
def mkError (id : String) (msg : String) : ResultFrame :=
  ⟨id, none, some msg⟩

/-- `resultEvent(message)`: the internal event key a call's one-shot waiter
listens on (src/rpcjs.js line 382: `"result:" + message.id`). -/
def resultKey (id : String) : String :=
  "result:" ++ id

/-- How a `call`'s promise settles, as computed by `handleResult`
(src/rpcjs.js lines 332–344). -/
inductive CallOutcome where
  | resolvedV (v : JSValue)
  | rejectedRemote (msg : String)
  | rejectedInvalid

/-- `handleResult`: `"result" in result` wins, else `"error" in result`
rejects with the (re-inflated) remote error, else the frame is invalid and
the call's promise is rejected with `Error("invalid result")`. -/
def handleResult (f : ResultFrame) : CallOutcome :=
  match f.result with
  | some v => .resolvedV v
  | none =>
    match f.error with
    | some e => .rejectedRemote e
    | none => .rejectedInvalid

/-- The state of one pair that the claims observe: the registered one-shot
result waiters (event keys on `localListeners`), the frame each waiter's
promise was settled with, and the log of values passed to the injected
error sink `opts.error`. -/
structure PairState where
  onceListeners : List String
  settled : String → Option ResultFrame
  sink : List String

/-- Externally observable side effects of dispatching a message, in
execution order. -/
inductive Action where
  | sendA (m : WireMsg)
  | effectA (event : String) (data : List JSValue)
  | registerWaiterA (key : String)

/-- `callIncoming` (src/rpcjs.js lines 258–274): look the method up in the
exposed-methods table (a missing entry reads as `undefined`, hence the
truthiness test `if(fn)`), run it via `runEnsuringPromise`, and answer
with `sendResult` / `sendError`; `none` while the handler is still
pending (the reply is written only once it settles). -/
def callReply (methods : String → Option JSValue) (id method : String)
    (params : List JSValue) : Option ResultFrame :=
  let fn := (methods method).getD .undefined
  if truthy fn then
    match runEnsuringPromise fn params with
    | .resolved v => some (mkResult id v)
    | .rejected e => some (mkError id e)
    | .pending => none
  else
    some (mkError id "NoSuchMethod")

/-- The `result` branch of `incoming`: `localListeners.emit("result:"+id,
message)`.  Firing removes every one-shot listener on that key
(EventEmitter `once` semantics, per the spec's one-shot waiter) and settles
the waiter's promise with the frame; a promise already settled keeps its
first value.  With no listener registered the emit is a no-op. -/
def incomingResult (st : PairState) (f : ResultFrame) : PairState :=
  if resultKey f.id ∈ st.onceListeners then
    { st with
      onceListeners := st.onceListeners.filter (fun k => k ≠ resultKey f.id),
      settled := fun k =>
        if k = f.id then some ((st.settled f.id).getD f) else st.settled k }
  else st

/-- `incoming(message)` (src/rpcjs.js lines 210–224): dispatch on
`message.type`.  `call` replies via `callReply`; `notify` sends the ack
first and only then dispatches to local listeners through `wrapEffects`;
`result` fires the correlated waiter; an unknown type goes to the injected
error sink. -/
def incoming (methods : String → Option JSValue) (st : PairState)
    (m : WireMsg) : PairState × List Action :=
  match m with
  | .callW id method params =>
    (st,
      match callReply methods id method params with
      | some f => [Action.sendA (.resultW f)]
      | none => [])
  | .notifyW id event data =>
    (st, [Action.sendA (.resultW (mkResult id JSValue.undefined)),
          Action.effectA event data])
  | .resultW f => (incomingResult st f, [])
  | .unknownW _ =>
    ({ st with sink := st.sink ++ ["unknown message type"] }, [])

/-- The promise a `call` with correlation id `id` returned, seen through
the waiter it registered: the waiter's settling frame piped through
`handleResult` (the `.then(handleResult)` in `call`). -/
def callOutcome (st : PairState) (id : String) : Option CallOutcome :=
  (st.settled id).map handleResult

/-- Fold a list of inbound result frames through `incoming`. -/
def processResults (st : PairState) (frames : List ResultFrame) : PairState :=
  frames.foldl (fun s f => (incoming (fun _ => none) s (.resultW f)).1) st

/-- `acknowledgedWrite` (src/rpcjs.js lines 276–288): register the
one-shot waiter on `"result:"+id` first, then invoke `send`.  `sendFn`
models the installed transport send, which may synchronously feed frames
back into this pair's `incoming` (an in-process loopback). -/
def acknowledgedWrite (st : PairState) (m : WireMsg)
    (sendFn : PairState → WireMsg → PairState) : PairState × List Action :=
  let key := resultKey m.wid
  let st1 := { st with onceListeners := key :: st.onceListeners }
  (sendFn st1 m, [Action.registerWaiterA key, Action.sendA m])

/-- Recognizer for transport-send actions. -/
def isSendAction : Action → Bool
  | .sendA _ => true
  | _ => false

/-- Recognizer for listener-dispatch (wrapEffects) actions. -/
def isEffectAction : Action → Bool
  | .effectA _ _ => true
  | _ => false

/-- Recognizer for waiter-registration actions. -/
def isRegisterAction : Action → Bool
  | .registerWaiterA _ => true
  | _ => false

/-- The methods table `{ echo: x ⇒ x }`. -/
def echoMethods : String → Option JSValue :=
  fun name => if name = "echo" then some (.funcReturnsArg 0) else none

/-- One full `echo(v)` round trip: the server's reply frame to
`call "echo" [v]`, piped through the client's `handleResult`. -/
def echoRoundTrip (v : JSValue) : Option CallOutcome :=
  (callReply echoMethods "client:1" "echo" [v]).map handleResult

/-! ## Actor registry (src/actors.js) -/

/-- `REGISTRATION_TIMEOUT` (src/actors.js line 13). -/
def REGISTRATION_TIMEOUT : Nat := 500

/-- The registry's per-method call timeout `callTimeout` (src/actors.js
line 49). -/
def callTimeoutMs : Nat := 500

/-- One slot of the `actors` table: either a registered actor value or the
`EXPIRED` sentinel (`var EXPIRED = {}` — a truthy object distinct from
every user value, compared with `===`). -/
inductive Slot where
  | expired
  | val (v : JSValue)

/-- Truthiness of `actors[id]` as the source tests it (`if(actors[id])`,
`if(found)`): a missing entry reads `undefined` (falsy); the `EXPIRED`
sentinel is a plain object (truthy); a stored value has its own
truthiness. -/
def slotTruthy : Option Slot → Bool
  | none => false
  | some .expired => true
  | some (.val v) => truthy v

/-- The actor registry's state: the `actors` table. -/
structure RegState where
  actors : String → Option Slot

/-- The empty registry. -/
def emptyReg : RegState := ⟨fun _ => none⟩

/-- `actors[id] = s`. -/
def setSlot (st : RegState) (id : String) (s : Slot) : RegState :=
  ⟨fun k => if k = id then some s else st.actors k⟩

/-- `exposeActor(id, actor)` (src/actors.js lines 64–100).  Returns the
resulting state and the thrown error's message, if one was thrown.  The
steps, in source order: the `typeof actor !== "object"` guard (which null
passes — the JS quirk above), the truthiness duplicate check, the
assignment `actors[id] = actor`, then `exposeActorEvents` whose first
statement reads `actor.on` — a TypeError when `actor` is null, thrown
*after* the assignment.  (When `actor.on` is readable the event wiring
only wraps `actor.emit` behind a proxy flag; it never touches `actors`,
so it is not modelled further.)  On success `register:<id>` fires. -/
def exposeActor (st : RegState) (id : String) (actor : JSValue) :
    RegState × Option String :=
  if jsTypeof actor ≠ "object" then
    (st, some "actor must be object")
  else if slotTruthy (st.actors id) then
    (st, some ("duplicate actor id: " ++ id))
  else
    let st1 := setSlot st id (.val actor)
    match getProp actor "on" with
    | .error e => (st1, some e)
    | .ok _ => (st1, none)

/-- `expireActor(id)` (src/actors.js lines 194–197): unconditionally write
the `EXPIRED` sentinel and fire `deregister:<id>` (which only switches the
event-proxy flag off). -/
def expireActor (st : RegState) (id : String) : RegState :=
  setSlot st id .expired

/-- Which promise constructor built a promise: the injected
`PromiseConstructor` or the ambient global `Promise`. -/
inductive PromiseKind where
  | injected
  | ambient
deriving DecidableEq

/-- The result of `waitForActor`: the constructor that built the returned
promise and its eventual outcome. -/
structure WaitResult where
  ctor : PromiseKind
  outcome : PromiseResult

/-- `notExpired(found)` (src/actors.js lines 150–156): reject with
`ActorExpired` on the sentinel, otherwise pass the value through (reading
a missing entry passes `undefined` through). -/
def notExpiredOpt : Option Slot → PromiseResult
  | some .expired => .rejected "ActorExpired"
  | some (.val v) => .resolved v
  | none => .resolved .undefined

/-- The environment of one `waitForActor` race: if and when a
`register:<id>` event fires (ms after the wait began), and what
`actors[id]` holds at that moment. -/
structure RegEnv where
  regArrival : Option Nat
  slotAtReg : Option Slot

/-- `waitForActor(PromiseConstructor, id, n)` (src/actors.js lines
133–157).  If `actors[id]` is truthy the result is
`Promise.resolve(notExpired(found))` — built by the ambient global
`Promise`, not the injected constructor.  Otherwise the injected
constructor races a one-shot `register:<id>` waiter against the timeout
(`eventToPromise`/`timeout` are modelled from the spec: the event wins
exactly when it fires strictly inside the window), then re-reads
`actors[id]`. -/
def waitForActor (st : RegState) (id : String) (n : Nat) (env : RegEnv) :
    WaitResult :=
  let found := st.actors id
  if slotTruthy found then
    ⟨.ambient, notExpiredOpt found⟩
  else
    match env.regArrival with
    | some t =>
      if t < n then ⟨.injected, notExpiredOpt env.slotAtReg⟩
      else ⟨.injected, .rejected "ActorRegistrationTimeout"⟩
    | none => ⟨.injected, .rejected "ActorRegistrationTimeout"⟩

/-- The registry's `call` handler behind the exposed `"callActor"` method
(src/actors.js lines 102–124): resolve the actor with
`waitForActor(…, REGISTRATION_TIMEOUT)`, look up `actor[method]`, reject
`ActorNoSuchMethod` unless it is a function, otherwise run it through
`runEnsuringPromise` under the `ActorCallTimeout` method timeout. -/
def registryCall (st : RegState) (env : RegEnv) (id method : String)
    (params : List JSValue) : PromiseResult :=
  match (waitForActor st id REGISTRATION_TIMEOUT env).outcome with
  | .resolved actor =>
    match getProp actor method with
    | .error e => .rejected e
    | .ok fn =>
      if isFunction fn then
        withTimeout "ActorCallTimeout" (runEnsuringPromise fn params)
      else .rejected "ActorNoSuchMethod"
  | .rejected m => .rejected m
  | .pending => .pending

/-- The registry's `getActorProperty` handler behind the exposed
`"-getActorProperty-"` method (src/actors.js lines 126–131): resolve the
actor with the same wait discipline, then return `actor[property]`. -/
def registryGetProperty (st : RegState) (env : RegEnv)
    (id property : String) : PromiseResult :=
  match (waitForActor st id REGISTRATION_TIMEOUT env).outcome with
  | .resolved actor =>
    match getProp actor property with
    | .error e => .rejected e
    | .ok v => .resolved v
  | .rejected m => .rejected m
  | .pending => .pending

/-- The registry operations that mutate the `actors` table. -/
inductive RegOp where
  | exposeOp (id : String) (a : JSValue)
  | expireOp (id : String)

/-- Apply one mutating registry operation (a thrown `exposeActor` error
leaves whatever state the throw left behind). -/
def applyOp (st : RegState) : RegOp → RegState
  | .exposeOp id a => (exposeActor st id a).1
  | .expireOp id => expireActor st id

/-- Apply a sequence of mutating registry operations. -/
def applyOps (st : RegState) (ops : List RegOp) : RegState :=
  ops.foldl applyOp st

/-- `v` is a non-null record: `typeof v === "object" && v !== null`. -/
def isNonNullRecord : JSValue → Bool
  | .objVal _ => true
  | _ => false

/-- Is `pat` a contiguous run inside `l`? -/
def charsContain : List Char → List Char → Bool
  | [], pat => pat.isEmpty
  | c :: rest, pat => pat.isPrefixOf (c :: rest) || charsContain rest pat

/-- Does `s` contain `pat` as a substring (the `/Expired/`-style regex
tests in the spec)? -/
def containsSubstr (s pat : String) : Bool :=
  charsContain s.data pat.data

/-! ## Helper lemmas -/

theorem resultKey_injective {a b : String} (h : resultKey a = resultKey b) :
    a = b := by
  obtain ⟨la⟩ := a
  obtain ⟨lb⟩ := b
  have h2 : "result:".data ++ la = "result:".data ++ lb :=
    congrArg String.data h
  exact congrArg String.mk (List.append_cancel_left h2)

theorem processResults_nil (st : PairState) : processResults st [] = st := rfl

theorem processResults_cons (st : PairState) (f : ResultFrame)
    (fs : List ResultFrame) :
    processResults st (f :: fs) = processResults (incomingResult st f) fs := rfl

theorem incomingResult_sink (st : PairState) (f : ResultFrame) :
    (incomingResult st f).sink = st.sink := by
  unfold incomingResult
  split <;> rfl

theorem incomingResult_settled_ne (st : PairState) (f : ResultFrame)
    {x : String} (hne : f.id ≠ x) :
    (incomingResult st f).settled x = st.settled x := by
  unfold incomingResult
  split
  · exact if_neg (fun h => hne h.symm)
  · rfl

theorem incomingResult_not_listening (st : PairState) (f : ResultFrame)
    {x : String} (h : resultKey x ∉ st.onceListeners) :
    resultKey x ∉ (incomingResult st f).onceListeners := by
  unfold incomingResult
  split
  · intro hmem
    exact h (List.mem_of_mem_filter hmem)
  · exact h

/-- With no waiter registered for `x`, no run of inbound result frames can
settle `x`, touch the sink, or create a waiter for `x`. -/
theorem processResults_stable {x : String} :
    ∀ (frames : List ResultFrame) (st : PairState),
    resultKey x ∉ st.onceListeners →
    (processResults st frames).settled x = st.settled x ∧
    (processResults st frames).sink = st.sink ∧
    resultKey x ∉ (processResults st frames).onceListeners := by
  intro frames
  induction frames with
  | nil => exact fun st h => ⟨rfl, rfl, h⟩
  | cons f fs ih =>
    intro st h
    rw [processResults_cons]
    by_cases hmem : resultKey f.id ∈ st.onceListeners
    · have hK : f.id ≠ x := fun hfx => h (hfx ▸ hmem)
      obtain ⟨h1, h2, h3⟩ :=
        ih (incomingResult st f) (incomingResult_not_listening st f h)
      refine ⟨?_, ?_, h3⟩
      · rw [h1, incomingResult_settled_ne st f hK]
      · rw [h2, incomingResult_sink]
    · have hnoop : incomingResult st f = st := by
        unfold incomingResult
        rw [if_neg hmem]
      rw [hnoop]
      exact ih st h

/-- With a waiter registered for `x` and its promise pending, the first
frame with id `x` settles it; afterwards the waiter is gone. -/
theorem processResults_first {x : String} :
    ∀ (frames : List ResultFrame) (st : PairState),
    resultKey x ∈ st.onceListeners → st.settled x = none →
    (processResults st frames).settled x
      = frames.find? (fun f => f.id == x) ∧
    (processResults st frames).sink = st.sink ∧
    ((frames.find? (fun f => f.id == x)).isSome →
      resultKey x ∉ (processResults st frames).onceListeners) := by
  intro frames
  induction frames with
  | nil =>
    intro st _ hs
    refine ⟨hs, rfl, ?_⟩
    intro hsome
    simp [List.find?] at hsome
  | cons f fs ih =>
    intro st hw hs
    rw [processResults_cons]
    by_cases hid : f.id = x
    · -- the first frame carrying id x fires and removes the waiter
      have hmem : resultKey f.id ∈ st.onceListeners := by rw [hid]; exact hw
      have hstep : incomingResult st f =
          { st with
            onceListeners :=
              st.onceListeners.filter (fun k => k ≠ resultKey f.id),
            settled := fun k =>
              if k = f.id then some ((st.settled f.id).getD f)
              else st.settled k } := by
        unfold incomingResult
        rw [if_pos hmem]
      have hnot : resultKey x ∉ (incomingResult st f).onceListeners := by
        rw [hstep, hid]
        intro hmem2
        have := List.of_mem_filter hmem2
        simp at this
      have hset : (incomingResult st f).settled x = some f := by
        rw [hstep]
        simp only [hid, if_pos rfl]
        rw [hid] at *
        rw [hs]
        rfl
      obtain ⟨s1, s2, s3⟩ := processResults_stable fs (incomingResult st f) hnot
      have hfind : (f :: fs).find? (fun g => g.id == x) = some f :=
        List.find?_cons_of_pos _ (by simp [hid])
      refine ⟨?_, ?_, fun _ => s3⟩
      · rw [s1, hset, hfind]
      · rw [s2, incomingResult_sink]
    · -- a frame for some other id leaves x's waiter and promise alone
      have hfind : (f :: fs).find? (fun g => g.id == x)
          = fs.find? (fun g => g.id == x) :=
        List.find?_cons_of_neg _ (by simp [hid])
      have hw2 : resultKey x ∈ (incomingResult st f).onceListeners := by
        unfold incomingResult
        split
        · refine List.mem_filter.mpr ⟨hw, ?_⟩
          simp only [decide_eq_true_eq]
          intro hkey
          exact hid (resultKey_injective hkey).symm
        · exact hw
      have hs2 : (incomingResult st f).settled x = none := by
        rw [incomingResult_settled_ne st f hid, hs]
      obtain ⟨s1, s2, s3⟩ := ih (incomingResult st f) hw2 hs2
      refine ⟨?_, ?_, ?_⟩
      · rw [s1, hfind]
      · rw [s2, incomingResult_sink]
      · rw [hfind]
        exact s3

/-! ## Claim theorems -/

/-- C1: for every outbound call with correlation id `X` (a registered
one-shot waiter with a pending promise), the promise is settled exactly by
the first inbound result frame carrying id `X` — resolving or rejecting
according to that frame via `handleResult` — while subsequent frames with
id `X` are complete no-ops: the state is unchanged and nothing reaches the
error sink. -/
theorem call_correlation_first_result (st : PairState) (x : String)
    (frames : List ResultFrame)
    (hw : resultKey x ∈ st.onceListeners) (hs : st.settled x = none) :
    (processResults st frames).settled x
      = frames.find? (fun f => f.id == x) ∧
    callOutcome (processResults st frames) x
      = (frames.find? (fun f => f.id == x)).map handleResult ∧
    (processResults st frames).sink = st.sink ∧
    (∀ g : ResultFrame, g.id = x →
      (frames.find? (fun f => f.id == x)).isSome →
      incomingResult (processResults st frames) g
        = processResults st frames) := by
  obtain ⟨h1, h2, h3⟩ := processResults_first frames st hw hs
  refine ⟨h1, ?_, h2, ?_⟩
  · rw [callOutcome, h1]
  · intro g hg hsome
    have hnot := h3 hsome
    unfold incomingResult
    rw [if_neg (by rw [hg]; exact hnot)]

/-- Witness for C1: with a waiter for id `n:1` pending, two result frames
for `n:1` settle the promise with the first frame only, and no error is
sunk. -/
theorem call_correlation_first_result_witness :
    resultKey "n:1" ∈ (PairState.mk [resultKey "n:1"] (fun _ => none) []).onceListeners ∧
    (processResults ⟨[resultKey "n:1"], fun _ => none, []⟩
        [⟨"n:1", some (.numVal 1), none⟩, ⟨"n:1", some (.numVal 2), none⟩]).settled "n:1"
      = some ⟨"n:1", some (.numVal 1), none⟩ ∧
    (processResults ⟨[resultKey "n:1"], fun _ => none, []⟩
        [⟨"n:1", some (.numVal 1), none⟩, ⟨"n:1", some (.numVal 2), none⟩]).sink
      = [] := by
  have h := call_correlation_first_result
    ⟨[resultKey "n:1"], fun _ => none, []⟩ "n:1"
    [⟨"n:1", some (.numVal 1), none⟩, ⟨"n:1", some (.numVal 2), none⟩]
    (List.mem_singleton.mpr rfl) rfl
  exact ⟨List.mem_singleton.mpr rfl, h.1.trans (by rfl), h.2.2.1⟩

/-- C4: dispatching an inbound notify frame sends the empty-result (null
payload) acknowledgement to the peer strictly before the local listeners
are invoked through the effect wrapper: the ack is action 0, the
wrapEffects dispatch is action 1 of the observable trace. -/
theorem notify_ack_precedes_listener_dispatch
    (methods : String → Option JSValue) (st : PairState)
    (id event : String) (data : List JSValue) :
    (incoming methods st (.notifyW id event data)).2
      = [Action.sendA (.resultW ⟨id, some JSValue.null, none⟩),
         Action.effectA event data] ∧
    (incoming methods st (.notifyW id event data)).2.findIdx isSendAction
      < (incoming methods st (.notifyW id event data)).2.findIdx
          isEffectAction := by
  refine ⟨rfl, ?_⟩
  show (0 : Nat) < 1
  decide

/-- C9: `acknowledgedWrite` registers the one-shot waiter on
`"result:"+id` (action 0) before invoking the send function (action 1),
so a transport that synchronously loops a result frame for that id back
into `incoming` from inside `send` still settles the returned promise. -/
theorem waiter_registered_before_send (st : PairState) (m : WireMsg)
    (v : JSValue) (hs : st.settled m.wid = none) :
    (acknowledgedWrite st m (fun s msg =>
        (incoming (fun _ => none) s (.resultW ⟨msg.wid, some v, none⟩)).1)).2
      = [Action.registerWaiterA (resultKey m.wid), Action.sendA m] ∧
    (acknowledgedWrite st m (fun s msg =>
        (incoming (fun _ => none) s (.resultW ⟨msg.wid, some v, none⟩)).1)).2.findIdx
          isRegisterAction
      < (acknowledgedWrite st m (fun s msg =>
          (incoming (fun _ => none) s (.resultW ⟨msg.wid, some v, none⟩)).1)).2.findIdx
            isSendAction ∧
    (acknowledgedWrite st m (fun s msg =>
        (incoming (fun _ => none) s (.resultW ⟨msg.wid, some v, none⟩)).1)).1.settled
          m.wid
      = some ⟨m.wid, some v, none⟩ := by
  refine ⟨rfl, by show (0 : Nat) < 1; decide, ?_⟩
  show (incomingResult
      { st with onceListeners := resultKey m.wid :: st.onceListeners }
      ⟨m.wid, some v, none⟩).settled m.wid = some ⟨m.wid, some v, none⟩
  unfold incomingResult
  rw [if_pos (List.mem_cons_self _ _)]
  simp [hs]

/-- Witness for C9: over a synchronous loopback transport, a concrete call
frame's promise is settled by the frame delivered from inside `send`. -/
theorem waiter_registered_before_send_witness :
    (PairState.mk [] (fun _ => none) []).settled (WireMsg.callW "c:9" "m" []).wid
      = none ∧
    (acknowledgedWrite ⟨[], fun _ => none, []⟩ (.callW "c:9" "m" [])
        (fun s msg =>
          (incoming (fun _ => none) s
            (.resultW ⟨msg.wid, some (.numVal 3), none⟩)).1)).1.settled
          (WireMsg.callW "c:9" "m" []).wid
      = some ⟨(WireMsg.callW "c:9" "m" []).wid, some (.numVal 3), none⟩ :=
  ⟨rfl, (waiter_registered_before_send ⟨[], fun _ => none, []⟩
      (.callW "c:9" "m" []) (.numVal 3) rfl).2.2⟩

/-- C2 counterexample: calling `echo(0)` over the pair does *not* resolve
to `0`; `sendResult`'s `result || null` coercion turns the falsy payload
into `null`, so the caller receives `null`. -/
theorem echo_falsy_coerced_to_null :
    echoRoundTrip (JSValue.numVal 0) = some (CallOutcome.resolvedV JSValue.null) ∧
    echoRoundTrip (JSValue.numVal 0)
      ≠ some (CallOutcome.resolvedV (JSValue.numVal 0)) := by
  have h0 : echoRoundTrip (JSValue.numVal 0)
      = some (CallOutcome.resolvedV JSValue.null) := rfl
  refine ⟨h0, ?_⟩
  rw [h0]
  intro h
  injection h with h1
  injection h1 with h2
  exact JSValue.noConfusion h2

/-- C2 amended: `echo(v)` resolves to `v` for every truthy `v` and for
`v = null`; other falsy values (0, false, "", undefined) are coerced to
`null` by `sendResult`. -/
theorem echo_resolves_truthy_or_null (v : JSValue)
    (h : truthy v = true ∨ v = JSValue.null) :
    echoRoundTrip v = some (CallOutcome.resolvedV v) := by
  have horn : orNull v = v := by
    rcases h with h | h
    · rw [orNull, if_pos h]
    · rw [h]; rfl
  simp [echoRoundTrip, callReply, echoMethods, runEnsuringPromise, mkResult,
    handleResult, horn, truthy]

/-- Witness for C2 (amended): `echo("hi")` resolves to `"hi"`. -/
theorem echo_resolves_truthy_or_null_witness :
    (truthy (JSValue.strVal "hi") = true ∨ JSValue.strVal "hi" = JSValue.null) ∧
    echoRoundTrip (JSValue.strVal "hi")
      = some (CallOutcome.resolvedV (JSValue.strVal "hi")) :=
  ⟨Or.inl (by decide),
   echo_resolves_truthy_or_null (JSValue.strVal "hi") (Or.inl (by decide))⟩

/-- C3 counterexample: an inbound result frame with neither `result` nor
`error` leaves the injected error sink untouched and instead rejects the
pending call's promise with the invalid-result error — the opposite of
what the claim states on both counts. -/
theorem invalid_result_not_routed_to_sink :
    (incoming (fun _ => none) ⟨[resultKey "client:1"], fun _ => none, []⟩
        (.resultW ⟨"client:1", none, none⟩)).1.sink = [] ∧
    callOutcome (incoming (fun _ => none)
        ⟨[resultKey "client:1"], fun _ => none, []⟩
        (.resultW ⟨"client:1", none, none⟩)).1 "client:1"
      = some CallOutcome.rejectedInvalid := by
  constructor
  · rfl
  · rfl

/-- C3 amended: a result frame carrying neither `result` nor `error`
settles the correlated pending call and that call's promise rejects with
the invalid-result error (`handleResult`'s final branch); the Pair's error
sink is not invoked. -/
theorem invalid_result_rejects_pending_call
    (methods : String → Option JSValue) (st : PairState) (f : ResultFrame)
    (hres : f.result = none) (herr : f.error = none)
    (hw : resultKey f.id ∈ st.onceListeners) (hs : st.settled f.id = none) :
    (incoming methods st (.resultW f)).1.sink = st.sink ∧
    callOutcome (incoming methods st (.resultW f)).1 f.id
      = some CallOutcome.rejectedInvalid := by
  constructor
  · show (incomingResult st f).sink = st.sink
    exact incomingResult_sink st f
  · show callOutcome (incomingResult st f) f.id = some CallOutcome.rejectedInvalid
    unfold incomingResult callOutcome
    rw [if_pos hw]
    simp [hs, handleResult, hres, herr]

/-- Witness for C3 (amended): a concrete empty result frame for a pending
call id `w:3` rejects that call with the invalid-result outcome. -/
theorem invalid_result_rejects_pending_call_witness :
    resultKey "w:3" ∈ (PairState.mk [resultKey "w:3"] (fun _ => none) []).onceListeners ∧
    (incoming (fun _ => none) ⟨[resultKey "w:3"], fun _ => none, []⟩
        (.resultW ⟨"w:3", none, none⟩)).1.sink = [] ∧
    callOutcome (incoming (fun _ => none)
        ⟨[resultKey "w:3"], fun _ => none, []⟩
        (.resultW ⟨"w:3", none, none⟩)).1 "w:3"
      = some CallOutcome.rejectedInvalid := by
  have h := invalid_result_rejects_pending_call (fun _ => none)
    ⟨[resultKey "w:3"], fun _ => none, []⟩ ⟨"w:3", none, none⟩
    rfl rfl (List.mem_singleton.mpr rfl) rfl
  exact ⟨List.mem_singleton.mpr rfl, h.1, h.2⟩

/-- Once a slot holds the `EXPIRED` sentinel, no sequence of registry
operations ever changes it: `exposeActor` refuses the id (the sentinel is
truthy, so the duplicate check fires) and `expireActor` rewrites the same
sentinel. -/
theorem expired_persists :
    ∀ (ops : List RegOp) (st : RegState) (id : String),
    st.actors id = some Slot.expired →
    (applyOps st ops).actors id = some Slot.expired := by
  intro ops
  induction ops with
  | nil => exact fun st id h => h
  | cons op rest ih =>
    intro st id h
    show (applyOps (applyOp st op) rest).actors id = some Slot.expired
    apply ih
    cases op with
    | expireOp id2 =>
      show (if id = id2 then some Slot.expired else st.actors id)
        = some Slot.expired
      by_cases hid : id = id2
      · rw [if_pos hid]
      · rw [if_neg hid]
        exact h
    | exposeOp id2 a =>
      show (exposeActor st id2 a).1.actors id = some Slot.expired
      unfold exposeActor
      split
      · exact h
      · split
        · exact h
        · rename_i hdup
          have hne : id ≠ id2 := by
            intro hidq
            rw [← hidq, h] at hdup
            simp [slotTruthy] at hdup
          have hset : (setSlot st id2 (Slot.val a)).actors id
              = some Slot.expired := by
            show (if id = id2 then some (Slot.val a) else st.actors id)
              = some Slot.expired
            rw [if_neg hne]
            exact h
          split <;> exact hset

/-- C5: a `callActor(id, …)` RPC arriving before `exposeActor(id, actor)`
still succeeds — the actor is resolved via the `register:<id>` waiter, the
named method is invoked and its value returned — provided registration
fires inside the 500 ms `REGISTRATION_TIMEOUT`; with no registration in
that window (none at all, or one arriving too late) the call rejects with
`ActorRegistrationTimeout`. -/
theorem late_binding_call (st : RegState) (id method : String)
    (params : List JSValue) (t : Nat)
    (fields : List (String × JSValue)) (v : JSValue)
    (habsent : st.actors id = none)
    (ht : t < REGISTRATION_TIMEOUT)
    (hm : fields.lookup method = some (JSValue.funcConst v)) :
    registryCall st ⟨some t, some (Slot.val (JSValue.objVal fields))⟩
        id method params = PromiseResult.resolved v ∧
    registryCall st ⟨none, none⟩ id method params
      = PromiseResult.rejected "ActorRegistrationTimeout" ∧
    (∀ t2 : Nat, REGISTRATION_TIMEOUT ≤ t2 → ∀ s2 : Option Slot,
      registryCall st ⟨some t2, s2⟩ id method params
        = PromiseResult.rejected "ActorRegistrationTimeout") := by
  have hfalsy : slotTruthy (st.actors id) = false := by
    rw [habsent]; rfl
  refine ⟨?_, ?_, ?_⟩
  · unfold registryCall waitForActor
    simp only [hfalsy, Bool.false_eq_true, if_false, if_pos ht]
    simp [notExpiredOpt, getProp, hm, isFunction, jsTypeof,
      withTimeout, runEnsuringPromise]
  · unfold registryCall waitForActor
    simp only [hfalsy, Bool.false_eq_true, if_false]
  · intro t2 ht2 s2
    unfold registryCall waitForActor
    simp only [hfalsy, Bool.false_eq_true, if_false,
      if_neg (Nat.not_lt.mpr ht2)]

/-- Witness for C5: registration at t=0 lets a pre-registration
`callActor("a","ping")` resolve with the method's value `7`. -/
theorem late_binding_call_witness :
    emptyReg.actors "a" = none ∧ 0 < REGISTRATION_TIMEOUT ∧
    registryCall emptyReg
        ⟨some 0, some (Slot.val (JSValue.objVal
          [("ping", JSValue.funcConst (JSValue.numVal 7))]))⟩
        "a" "ping" [] = PromiseResult.resolved (JSValue.numVal 7) ∧
    registryCall emptyReg ⟨none, none⟩ "a" "ping" []
      = PromiseResult.rejected "ActorRegistrationTimeout" := by
  have h := late_binding_call emptyReg "a" "ping" [] 0
    [("ping", JSValue.funcConst (JSValue.numVal 7))] (JSValue.numVal 7)
    rfl (by decide) rfl
  exact ⟨rfl, by decide, h.1, h.2.1⟩

/-- C6: after `expireActor(id)`, every `callActor` and `getActorProperty`
request resolving to `id` rejects with `ActorExpired` (whose message
matches `/Expired/`), any later `exposeActor(id, …)` — null included,
since `typeof null === "object"` — is refused as a duplicate, and no
sequence of registry operations ever re-binds the id. -/
theorem expiry_rejects_and_refuses_rebind (st : RegState) (id : String) :
    (∀ (env : RegEnv) (m : String) (params : List JSValue),
      registryCall (expireActor st id) env id m params
        = PromiseResult.rejected "ActorExpired") ∧
    containsSubstr "ActorExpired" "Expired" = true ∧
    (∀ (env : RegEnv) (p : String),
      registryGetProperty (expireActor st id) env id p
        = PromiseResult.rejected "ActorExpired") ∧
    (∀ a : JSValue, jsTypeof a = "object" →
      exposeActor (expireActor st id) id a
        = (expireActor st id, some ("duplicate actor id: " ++ id))) ∧
    (∀ ops : List RegOp,
      (applyOps (expireActor st id) ops).actors id = some Slot.expired) := by
  have hslot : (expireActor st id).actors id = some Slot.expired := by
    show (if id = id then some Slot.expired else st.actors id)
      = some Slot.expired
    rw [if_pos rfl]
  have hwait : ∀ env : RegEnv,
      (waitForActor (expireActor st id) id REGISTRATION_TIMEOUT env).outcome
        = PromiseResult.rejected "ActorExpired" := by
    intro env
    unfold waitForActor
    rw [hslot]
    rfl
  refine ⟨?_, by decide, ?_, ?_, ?_⟩
  · intro env m params
    unfold registryCall
    rw [hwait env]
  · intro env p
    unfold registryGetProperty
    rw [hwait env]
  · intro a hobj
    unfold exposeActor
    rw [if_neg (by rw [hobj]; exact fun hne => hne rfl), if_pos (by rw [hslot]; rfl)]
  · intro ops
    exact expired_persists ops _ id hslot

/-- Witness for C6: expiring `"a"` in the empty registry makes a concrete
`callActor` reject with `ActorExpired` and a concrete re-exposure fail as
a duplicate. -/
theorem expiry_rejects_and_refuses_rebind_witness :
    registryCall (expireActor emptyReg "a") ⟨none, none⟩ "a" "go" []
      = PromiseResult.rejected "ActorExpired" ∧
    jsTypeof (JSValue.objVal []) = "object" ∧
    exposeActor (expireActor emptyReg "a") "a" (JSValue.objVal [])
      = (expireActor emptyReg "a", some ("duplicate actor id: " ++ "a")) :=
  ⟨(expiry_rejects_and_refuses_rebind emptyReg "a").1 ⟨none, none⟩ "go" [],
   rfl,
   (expiry_rejects_and_refuses_rebind emptyReg "a").2.2.2.1
     (JSValue.objVal []) rfl⟩

/-- C7 is refuted at this input: with the actor already registered,
`waitForActor` returns `Promise.resolve(notExpired(found))` — a promise
built by the ambient global `Promise`, not by the injected constructor
(src/actors.js line 138). -/
theorem waitForActor_fast_path_ambient_promise :
    (waitForActor
        ⟨fun k => if k = "a" then some (Slot.val (JSValue.objVal [])) else none⟩
        "a" REGISTRATION_TIMEOUT ⟨none, none⟩).ctor = PromiseKind.ambient ∧
    PromiseKind.ambient ≠ PromiseKind.injected := by
  refine ⟨?_, by decide⟩
  unfold waitForActor
  rfl

/-- C8: `exposeActor(id, a)` fails with an error for every `a` that is not
a non-null record — the `typeof` guard throws `actor must be object` for
primitives and functions, and `null` (which passes the guard thanks to
`typeof null === "object"`) makes `exposeActorEvents` throw a TypeError
reading `null.on` — and in every such case the id's binding status (the
truthiness the registry's duplicate check and lookups observe) is
unchanged. -/
theorem exposeActor_non_record_fails (st : RegState) (id : String)
    (a : JSValue) (h : isNonNullRecord a = false) :
    (exposeActor st id a).2.isSome = true ∧
    slotTruthy ((exposeActor st id a).1.actors id)
      = slotTruthy (st.actors id) := by
  cases a with
  | objVal fields => simp [isNonNullRecord] at h
  | null =>
    by_cases hdup : slotTruthy (st.actors id) = true
    · unfold exposeActor
      rw [if_neg (by intro hne; exact hne rfl), if_pos hdup]
      exact ⟨rfl, rfl⟩
    · have hfalse : slotTruthy (st.actors id) = false :=
        Bool.eq_false_iff.mpr hdup
      unfold exposeActor
      rw [if_neg (by intro hne; exact hne rfl), if_neg hdup]
      constructor
      · rfl
      · show slotTruthy
            (if id = id then some (Slot.val JSValue.null) else st.actors id)
          = slotTruthy (st.actors id)
        rw [if_pos rfl, hfalse]
        rfl
  | undefined => exact ⟨rfl, rfl⟩
  | boolVal b => exact ⟨rfl, rfl⟩
  | numVal n => exact ⟨rfl, rfl⟩
  | strVal s => exact ⟨rfl, rfl⟩
  | funcReturnsArg i => exact ⟨rfl, rfl⟩
  | funcConst v => exact ⟨rfl, rfl⟩
  | funcThrows m => exact ⟨rfl, rfl⟩
  | funcRejects m => exact ⟨rfl, rfl⟩
  | funcNever => exact ⟨rfl, rfl⟩

/-- Witness for C8: exposing the number `5` and exposing `null` both fail
with an error and leave the id observably unbound. -/
theorem exposeActor_non_record_fails_witness :
    isNonNullRecord (JSValue.numVal 5) = false ∧
    (exposeActor emptyReg "x" (JSValue.numVal 5)).2.isSome = true ∧
    isNonNullRecord JSValue.null = false ∧
    (exposeActor emptyReg "x" JSValue.null).2.isSome = true ∧
    slotTruthy ((exposeActor emptyReg "x" JSValue.null).1.actors "x")
      = slotTruthy (emptyReg.actors "x") :=
  ⟨rfl, (exposeActor_non_record_fails emptyReg "x" (JSValue.numVal 5) rfl).1,
   rfl, (exposeActor_non_record_fails emptyReg "x" JSValue.null rfl).1,
   (exposeActor_non_record_fails emptyReg "x" JSValue.null rfl).2⟩

/-- C10: `expireActor(id)` succeeds for an id that was never exposed — it
writes the `EXPIRED` sentinel into the slot — after which every
`exposeActor(id, a)` with an actor record fails with `duplicate actor id`
and no sequence of registry operations ever binds the id. -/
theorem expire_unexposed_id_unbindable (st : RegState) (id : String)
    (_hnone : st.actors id = none) :
    (expireActor st id).actors id = some Slot.expired ∧
    (∀ a : JSValue, isNonNullRecord a = true →
      (exposeActor (expireActor st id) id a).2
        = some ("duplicate actor id: " ++ id)) ∧
    (∀ ops : List RegOp,
      (applyOps (expireActor st id) ops).actors id = some Slot.expired) := by
  have hslot : (expireActor st id).actors id = some Slot.expired := by
    show (if id = id then some Slot.expired else st.actors id)
      = some Slot.expired
    rw [if_pos rfl]
  refine ⟨hslot, ?_, fun ops => expired_persists ops _ id hslot⟩
  intro a ha
  cases a with
  | objVal fields =>
    unfold exposeActor
    rw [if_neg (by intro hne; exact hne rfl), if_pos (by rw [hslot]; rfl)]
  | null => simp [isNonNullRecord] at ha
  | undefined => simp [isNonNullRecord] at ha
  | boolVal b => simp [isNonNullRecord] at ha
  | numVal n => simp [isNonNullRecord] at ha
  | strVal s => simp [isNonNullRecord] at ha
  | funcReturnsArg i => simp [isNonNullRecord] at ha
  | funcConst v => simp [isNonNullRecord] at ha
  | funcThrows m => simp [isNonNullRecord] at ha
  | funcRejects m => simp [isNonNullRecord] at ha
  | funcNever => simp [isNonNullRecord] at ha

/-- Witness for C10: expiring the never-exposed id `"ghost"` writes the
sentinel and a later exposure of a record is refused as a duplicate. -/
theorem expire_unexposed_id_unbindable_witness :
    emptyReg.actors "ghost" = none ∧
    (expireActor emptyReg "ghost").actors "ghost" = some Slot.expired ∧
    isNonNullRecord (JSValue.objVal [("on", JSValue.funcNever)]) = true ∧
    (exposeActor (expireActor emptyReg "ghost") "ghost"
        (JSValue.objVal [("on", JSValue.funcNever)])).2
      = some ("duplicate actor id: " ++ "ghost") :=
  ⟨rfl, (expire_unexposed_id_unbindable emptyReg "ghost" rfl).1, rfl,
   (expire_unexposed_id_unbindable emptyReg "ghost" rfl).2.1
     (JSValue.objVal [("on", JSValue.funcNever)]) rfl⟩

end Rpcjs
